import Mathlib

/-!
Verification of the path resolution and validation subsystem
(`src/path/validator.py`, `src/path/repository.py`).

Python `str` values are modelled as Lean `String`; `pathlib.Path` objects
are modelled by the raw string handed to the `Path` constructor, with
`str(path)` modelled by `pathStr` (pathlib normalisation) and `path.parts`
by `pathParts`.  The process environment `os.environ` is an association
list.  Filesystem-dependent operations (`Path.resolve`, `Path.exists`,
`mkdir`/`chmod`) are abstracted into explicit function parameters.
-/

/-- Python `str.isprintable` on the ASCII range: a character between
U+0020 and U+007E inclusive is printable, the C0 controls and DEL are not.
Beyond ASCII Python consults the Unicode category table; every path in
this development is ASCII, and the model treats non-ASCII as printable. -/
def pyIsPrintable (c : Char) : Bool :=
  if c.toNat < 0x80 then 0x20 ≤ c.toNat && c.toNat ≤ 0x7E else true

/-- Split a character list at every slash (the groups between slashes,
empty groups included), structurally recursive so that it reduces. -/
def splitSlash : List Char → List (List Char)
  | [] => [[]]
  | c :: rest =>
    match splitSlash rest with
    | [] => [[]]
    | g :: gs => if c = '/' then [] :: g :: gs else (c :: g) :: gs

/-- Join components with a slash separator. -/
def joinSlash : List String → String
  | [] => ""
  | [x] => x
  | x :: y :: xs => x ++ "/" ++ joinSlash (y :: xs)

/-- Whether the path string is absolute (starts with a slash). -/
def isAbsolute (s : String) : Bool :=
  match s.data with
  | '/' :: _ => true
  | _ => false

/-- The non-root components of a POSIX `pathlib` path: split on slashes,
dropping empty components and single-dot components, as `PurePosixPath`
does when parsing. -/
def pathComponents (s : String) : List String :=
  ((splitSlash s.data).map String.mk).filter (fun c => !(c == "" || c == "."))

/-- `Path(s).parts`: the root marker `/` (for an absolute path) followed by
the parsed components.  Literal `..` components are kept, `.` and empty
components are dropped, exactly as `pathlib` parses them. -/
def pathParts (s : String) : List String :=
  (if isAbsolute s then ["/"] else []) ++ pathComponents s

/-- `str(Path(s))`: the normalised string form produced by `pathlib`
(slashes collapsed, `.` components dropped, `.` for an empty path). -/
def pathStr (s : String) : String :=
  if isAbsolute s then "/" ++ joinSlash (pathComponents s)
  else if pathComponents s = [] then "." else joinSlash (pathComponents s)

/-- The process environment, as `os.environ`: variable name to value. -/
abbrev Env := List (String × String)

/-- Environment lookup, `os.environ[name]` returning `none` on `KeyError`. -/
def lookupEnv (env : Env) (k : String) : Option String :=
  env.lookup k

/-- A word character for `re.ASCII` word matching: ASCII letter, digit or
underscore, as in the `\w` class of the `posixpath.expandvars` pattern. -/
def isWordChar (c : Char) : Bool :=
  c.isAlpha || c.isDigit || c = '_'

/-- Take the maximal leading run of word characters, returning it together
with the remainder. -/
def takeWord : List Char → List Char × List Char
  | [] => ([], [])
  | c :: rest =>
    if isWordChar c then
      match takeWord rest with
      | (w, r) => (c :: w, r)
    else ([], c :: rest)

/-- Scan for the first closing brace: on success, the characters before it
and the remainder after it; `none` when no closing brace exists, in which
case the `expandvars` pattern fails to match. -/
def breakBrace : List Char → Option (List Char × List Char)
  | [] => none
  | c :: rest =>
    if c = '}' then some ([], rest)
    else
      match breakBrace rest with
      | none => none
      | some (content, rem) => some (c :: content, rem)

/-- The scanning loop of `os.path.expandvars` (POSIX flavour), fuelled so
that it is structurally recursive and reduces in the kernel; a fuel of
`length + 1` always suffices since every step consumes at least one input
character.  Faithful to `posixpath.expandvars`: a dollar followed by a
braced name or a word is looked up in the environment; a known variable is
replaced by its value (which is not rescanned); an unknown variable is left
in place literally and scanning resumes after it; a dollar that matches
neither form is literal. -/
def expandVarsAux (env : Env) : Nat → List Char → List Char
  | 0, l => l
  | _ + 1, [] => []
  | fuel + 1, '$' :: rest =>
    match rest with
    | '{' :: rest2 =>
      match breakBrace rest2 with
      | some (content, rem) =>
        match lookupEnv env (String.mk content) with
        | some v => v.data ++ expandVarsAux env fuel rem
        | none => '$' :: '{' :: (content ++ '}' :: expandVarsAux env fuel rem)
      | none => '$' :: expandVarsAux env fuel ('{' :: rest2)
    | _ =>
      match takeWord rest with
      | ([], _) => '$' :: expandVarsAux env fuel rest
      | (w, rem) =>
        match lookupEnv env (String.mk w) with
        | some v => v.data ++ expandVarsAux env fuel rem
        | none => '$' :: (w ++ expandVarsAux env fuel rem)
  | fuel + 1, c :: rest => c :: expandVarsAux env fuel rest

/-- `os.path.expandvars(s)` against the given environment. -/
def expandVars (env : Env) (s : String) : String :=
  String.mk (expandVarsAux env (s.data.length + 1) s.data)

/-- The filesystem-dependent operations of `pathlib.Path`, abstracted:
`resolve` is `Path.resolve()` (canonicalisation: symlinks and relative
segments resolved, always yielding an absolute path) and `pathExists` is
`Path.exists()`. -/
structure FileSystem where
  resolve : String → String
  pathExists : String → Bool

/-- `validator.PathValidator`: root and the length ceiling
(`self.max_path_length = 4096` in `__init__`). -/
structure PathValidator where
  project_root : String
  max_path_length : Nat

/-- The dict built by `PathValidator.validate_path`, one Boolean per rule;
`existsOnDisk` models the key named `exists` in the Python dict. -/
structure ValidationResult where
  is_within_project : Bool
  no_parent_reference : Bool
  valid_length : Bool
  valid_characters : Bool
  existsOnDisk : Bool
deriving DecidableEq, Repr

/-- `PurePath.relative_to`: succeeds exactly when the parts of `base` are
a prefix of the parts of `child` (with the degenerate empty-parts base
accepting exactly the relative children). -/
def relativeToOk (child base : String) : Bool :=
  if pathParts base = [] then !(isAbsolute child)
  else (pathParts base).isPrefixOf (pathParts child)

/-- `PathValidator._is_within_project`:
`path.resolve().relative_to(self.project_root)` returns `true`, a
`ValueError` yields `false`. -/
def PathValidator._is_within_project (v : PathValidator) (fs : FileSystem) (path : String) : Bool :=
  relativeToOk (fs.resolve path) v.project_root

/-- `PathValidator._no_parent_reference`: `".." not in path.parts`. -/
def PathValidator._no_parent_reference (path : String) : Bool :=
  !(pathParts path).contains ".."

/-- `PathValidator._valid_length`: `len(str(path)) <= self.max_path_length`. -/
def PathValidator._valid_length (v : PathValidator) (path : String) : Bool :=
  (pathStr path).length ≤ v.max_path_length

/-- The denylist of `PathValidator._valid_characters`. -/
def invalid_chars : List Char := ['<', '>', ':', '\"', '|', '?', '*']

/-- `PathValidator._valid_characters`:
`not any(char in str(path) for char in invalid_chars)`. -/
def PathValidator._valid_characters (path : String) : Bool :=
  !(invalid_chars.any (fun c => (pathStr path).data.contains c))

/-- The `results` dict assembled inside `PathValidator.validate_path`. -/
def PathValidator.results (v : PathValidator) (fs : FileSystem) (path : String) : ValidationResult where
  is_within_project := v._is_within_project fs path
  no_parent_reference := PathValidator._no_parent_reference path
  valid_length := v._valid_length path
  valid_characters := PathValidator._valid_characters path
  existsOnDisk := fs.pathExists path

/-- `all(results.values())`: the conjunction of all five recorded Booleans. -/
def ValidationResult.allValues (r : ValidationResult) : Bool :=
  r.is_within_project && r.no_parent_reference && r.valid_length &&
    r.valid_characters && r.existsOnDisk

/-- `PathValidator.validate_path`: build the `results` dict, raise
`PathValidationError` (carrying the results) unless `all(results.values())`,
otherwise return the results. -/
def PathValidator.validate_path (v : PathValidator) (fs : FileSystem) (path : String) :
    Except ValidationResult ValidationResult :=
  let results := v.results fs path
  if results.allValues then .ok results else .error results

/-- Whether an `Except` computation raised. -/
def isErr {ε α : Type} : Except ε α → Bool
  | .error _ => true
  | .ok _ => false

/-- The exceptions raised by `repository.py`, one constructor per distinct
`raise` site; each constructor carries the data interpolated into the
corresponding Python message. -/
inductive PathError
  /-- `PathError(f"Environment config not found: ...")` wrapped by
  `"Failed to load environment: ..."`. -/
  | configNotFound
  /-- `PathError(f"Required environment variable not set: {var}")`
  wrapped by `"Failed to load environment: ..."`. -/
  | envNotSet (var : String)
  /-- `PathError(f"Missing required path configuration: {key}")`, the
  `KeyError` branch of `_resolve_all_paths`. -/
  | missingConfig (key : String)
  /-- `PathError(f"Invalid path: {path}")` raised inside `_resolve_path`,
  wrapped by `"Failed to resolve path ..."`. -/
  | invalidPath (path : String)
  /-- `PathError(f"Invalid path for {key}: {path}")` from `_validate_paths`
  or from the re-check in `get_path`. -/
  | invalidPathFor (key : String) (path : String)
  /-- `KeyError(f"Unknown path key: {path_key}")` from `get_path`. -/
  | unknownKey (key : String)
  /-- `PathError(f"Failed to create directory {key}: ...")` from
  `ensure_directories`. -/
  | dirCreateFailed (key : String)
deriving DecidableEq, Repr

/-- A node of the parsed `environment.yaml` mapping: a string leaf or a
nested mapping, as produced by `yaml.safe_load`. -/
inductive ConfigValue
  | str (s : String)
  | dict (entries : List (String × ConfigValue))

/-- The top-level parsed configuration mapping. -/
abbrev ConfigDict := List (String × ConfigValue)

/-- Subscripting `config[key]`, `none` on `KeyError` or on subscripting a
string leaf. -/
def cfgGet : ConfigValue → String → Option ConfigValue
  | .str _, _ => none
  | .dict entries, key => entries.lookup key

/-- `PathRepository._is_valid_path`, the early-return chain: reject a
stringified length beyond 4096, a `..` among `path.parts`, or any
non-printable character of `str(path)`; accept otherwise. -/
def PathRepository._is_valid_path (path : String) : Bool :=
  if (pathStr path).length > 4096 then false
  else if (pathParts path).contains ".." then false
  else if (pathStr path).data.any (fun c => !pyIsPrintable c) then false
  else true

/-- `PathRepository._resolve_path`: `Path(os.path.expandvars(path_str))`
(the `Path` constructor normalises the string), then `_is_valid_path` or
`PathError`. -/
def PathRepository._resolve_path (env : Env) (path_str : String) : Except PathError String :=
  let path := pathStr (expandVars env path_str)
  if PathRepository._is_valid_path path then .ok path else .error (.invalidPath path)

/-- `required_vars` of `PathRepository._load_environment`. -/
def required_vars : List String := ["PROJECT_ROOT", "USER_HOME", "TEMP_DIR"]

/-- `PathRepository._load_environment`: fail when the config file is
absent, then fail on the first of `required_vars` missing from
`os.environ` (naming it), else return the parsed config. -/
def PathRepository._load_environment (env : Env) (envFileExists : Bool) (config : ConfigDict) :
    Except PathError ConfigDict :=
  if !envFileExists then .error .configNotFound
  else
    match required_vars.find? (fun v => (lookupEnv env v).isNone) with
    | some v => .error (.envNotSet v)
    | none => .ok config

/-- One key access plus `_resolve_path` of `_resolve_all_paths`: a missing
configuration key raises the `KeyError`-derived `PathError`, a non-string
value resolves its stringified form is not modelled — the accessed entry
must be a string leaf, anything else is the generic failure branch,
mapped to `missingConfig` as the nearest structured error. -/
def resolveConfigEntry (env : Env) (config : ConfigDict) (key : String) : Except PathError String :=
  match config.lookup key with
  | some (.str s) => PathRepository._resolve_path env s
  | _ => .error (.missingConfig key)

/-- As `resolveConfigEntry`, for the nested `config[group][key]` accesses. -/
def resolveConfigEntry2 (env : Env) (config : ConfigDict) (group key : String) : Except PathError String :=
  match config.lookup group with
  | some g =>
    match cfgGet g key with
    | some (.str s) => PathRepository._resolve_path env s
    | _ => .error (.missingConfig key)
  | none => .error (.missingConfig group)

/-- `PathRepository._resolve_all_paths`: resolve the fixed set of
configuration keys, in source order, into the `paths` dict. -/
def PathRepository._resolve_all_paths (env : Env) (config : ConfigDict) :
    Except PathError (List (String × String)) := do
  let project_root ← resolveConfigEntry env config "project_root"
  let src ← resolveConfigEntry env config "src"
  let config_ ← resolveConfigEntry env config "config"
  let tests ← resolveConfigEntry env config "tests"
  let data_input ← resolveConfigEntry2 env config "data" "input"
  let data_output ← resolveConfigEntry2 env config "data" "output"
  let data_processed ← resolveConfigEntry2 env config "data" "processed"
  let models_base ← resolveConfigEntry2 env config "models" "base"
  let models_pixtral ← resolveConfigEntry2 env config "models" "pixtral"
  let models_cache ← resolveConfigEntry2 env config "models" "cache"
  let logs ← resolveConfigEntry env config "logs"
  let temp ← resolveConfigEntry env config "temp"
  let cache ← resolveConfigEntry env config "cache"
  pure [("project_root", project_root), ("src", src), ("config", config_),
        ("tests", tests), ("data_input", data_input), ("data_output", data_output),
        ("data_processed", data_processed), ("models_base", models_base),
        ("models_pixtral", models_pixtral), ("models_cache", models_cache),
        ("logs", logs), ("temp", temp), ("cache", cache)]

/-- `PathRepository._validate_paths`: iterate the resolved dict in order
and raise at the first entry failing `_is_valid_path`. -/
def PathRepository._validate_paths (paths : List (String × String)) : Except PathError Unit :=
  match paths.find? (fun kp => !PathRepository._is_valid_path kp.2) with
  | some kp => .error (.invalidPathFor kp.1 kp.2)
  | none => .ok ()

/-- The repository instance: its `_paths` dict of resolved paths. -/
structure PathRepository where
  _paths : List (String × String)
deriving DecidableEq, Repr

/-- The construction-time inputs `__init__` reads from the world: the
process environment, whether `config/environment.yaml` exists, and its
parsed contents. -/
structure BuildWorld where
  env : Env
  envFileExists : Bool
  config : ConfigDict

/-- `PathRepository.__init__`: `_load_environment`, then
`_resolve_all_paths`, then `_validate_paths`; any raise aborts
construction. -/
def PathRepository.construct (w : BuildWorld) : Except PathError PathRepository := do
  let config ← PathRepository._load_environment w.env w.envFileExists w.config
  let paths ← PathRepository._resolve_all_paths w.env config
  PathRepository._validate_paths paths
  pure ⟨paths⟩

/-- `PathRepository.get_instance`: return the stored singleton when set;
otherwise evaluate `cls()` and assign the singleton only when construction
returns (an exception propagates before the assignment, leaving the
singleton unset).  Returns the new singleton cell and the call outcome. -/
def PathRepository.get_instance (inst : Option PathRepository) (w : BuildWorld) :
    Option PathRepository × Except PathError PathRepository :=
  match inst with
  | some r => (some r, .ok r)
  | none =>
    match PathRepository.construct w with
    | .ok r => (some r, .ok r)
    | .error e => (none, .error e)

/-- `PathRepository.get_path`: `KeyError` for a key outside `_paths`, then
the `_is_valid_path` re-check, then the stored path. -/
def PathRepository.get_path (repo : PathRepository) (path_key : String) : Except PathError String :=
  match repo._paths.lookup path_key with
  | none => .error (.unknownKey path_key)
  | some path =>
    if PathRepository._is_valid_path path then .ok path
    else .error (.invalidPathFor path_key path)

/-- `PathRepository.get_all_paths`: a copy of the `_paths` dict. -/
def PathRepository.get_all_paths (repo : PathRepository) : List (String × String) :=
  repo._paths

/-- `PathRepository.ensure_directories`: for each entry in order, attempt
`mkdir(parents=True, exist_ok=True)` followed by `chmod(0o755)` — both
abstracted into the success predicate `can` — and raise `PathError` naming
the key as soon as one entry fails. -/
def PathRepository.ensure_directories (can : String → Bool) :
    List (String × String) → Except PathError Unit
  | [] => .ok ()
  | (key, path) :: rest =>
    if can path then PathRepository.ensure_directories can rest
    else .error (.dirCreateFailed key)

/-- The behaviour the specification ascribes to `ensure_directories`,
stated in the words of the spec for comparison: attempt every entry, collect the
keys that fail, and raise one aggregate error listing every failed key. -/
def ensure_directories_specForm (can : String → Bool) (paths : List (String × String)) :
    Except (List String) Unit :=
  let failed := (paths.filter (fun kp => !can kp.2)).map (fun kp => kp.1)
  if failed.isEmpty then .ok () else .error failed

/-- A concrete process environment providing the three required variables. -/
def sampleEnv : Env :=
  [("PROJECT_ROOT", "/srv/app"), ("USER_HOME", "/home/u"), ("TEMP_DIR", "/tmp")]

/-- A concrete parsed `environment.yaml` carrying every configuration key
`_resolve_all_paths` reads, with templates over the required variables. -/
def sampleConfig : ConfigDict :=
  [("project_root", .str "$\x7bPROJECT_ROOT\x7d"),
   ("src", .str "$\x7bPROJECT_ROOT\x7d/src"),
   ("config", .str "$\x7bPROJECT_ROOT\x7d/config"),
   ("tests", .str "$\x7bPROJECT_ROOT\x7d/tests"),
   ("data", .dict [("input", .str "$\x7bPROJECT_ROOT\x7d/data/input"),
                   ("output", .str "$\x7bPROJECT_ROOT\x7d/data/output"),
                   ("processed", .str "$\x7bPROJECT_ROOT\x7d/data/processed")]),
   ("models", .dict [("base", .str "$\x7bPROJECT_ROOT\x7d/models"),
                     ("pixtral", .str "$\x7bPROJECT_ROOT\x7d/models/pixtral-12b"),
                     ("cache", .str "$\x7bPROJECT_ROOT\x7d/models/cache")]),
   ("logs", .str "$\x7bPROJECT_ROOT\x7d/logs"),
   ("temp", .str "$\x7bTEMP_DIR\x7d/project"),
   ("cache", .str "$\x7bPROJECT_ROOT\x7d/cache")]

/-- A construction world on which `__init__` succeeds. -/
def sampleWorld : BuildWorld := ⟨sampleEnv, true, sampleConfig⟩

/-- The `_paths` dict `__init__` builds from `sampleWorld`. -/
def samplePaths : List (String × String) :=
  [("project_root", "/srv/app"), ("src", "/srv/app/src"), ("config", "/srv/app/config"),
   ("tests", "/srv/app/tests"), ("data_input", "/srv/app/data/input"),
   ("data_output", "/srv/app/data/output"), ("data_processed", "/srv/app/data/processed"),
   ("models_base", "/srv/app/models"), ("models_pixtral", "/srv/app/models/pixtral-12b"),
   ("models_cache", "/srv/app/models/cache"), ("logs", "/srv/app/logs"),
   ("temp", "/tmp/project"), ("cache", "/srv/app/cache")]

/-- The layout of the specification scenario for the cache key:
`data` maps to a template over `PROJECT_ROOT`, `cache` to a template
referencing the logical key `data`. -/
def scenarioConfig : ConfigDict :=
  [("data", .str "$\x7bPROJECT_ROOT\x7d/data"),
   ("cache", .str "$\x7bdata\x7d/cache")]

/-- The scenario world: the scenario layout under the scenario environment. -/
def scenarioWorld : BuildWorld := ⟨sampleEnv, true, scenarioConfig⟩

/-- A world whose environment lacks `PROJECT_ROOT`, on which construction
fails. -/
def failWorld : BuildWorld :=
  ⟨[("USER_HOME", "/home/u"), ("TEMP_DIR", "/tmp")], true, sampleConfig⟩

/-- Membership from a successful association-list lookup. -/
theorem lookup_mem {l : List (String × String)} {k v : String}
    (h : l.lookup k = some v) : (k, v) ∈ l := by
  induction l with
  | nil => simp [List.lookup] at h
  | cons kp rest ih =>
    cases kp with
    | mk a b =>
      rw [List.lookup] at h
      by_cases he : k = a
      · subst he
        simp at h
        subst h
        exact List.mem_cons_self _ _
      · have hb : (k == a) = false := by simp [he]
        rw [hb] at h
        exact List.mem_cons_of_mem _ (ih h)

/-- A successful `__init__` ran `_validate_paths` on the stored dict. -/
theorem construct_paths_validated (w : BuildWorld) (repo : PathRepository)
    (h : PathRepository.construct w = .ok repo) :
    PathRepository._validate_paths repo._paths = .ok () := by
  unfold PathRepository.construct at h
  cases h1 : PathRepository._load_environment w.env w.envFileExists w.config with
  | error e => rw [h1] at h; simp [Bind.bind, Except.bind] at h
  | ok cfg =>
    rw [h1] at h
    simp only [Bind.bind, Except.bind] at h
    cases h2 : PathRepository._resolve_all_paths w.env cfg with
    | error e => rw [h2] at h; simp at h
    | ok paths =>
      rw [h2] at h
      simp only at h
      cases h3 : PathRepository._validate_paths paths with
      | error e => rw [h3] at h; simp at h
      | ok u =>
        rw [h3] at h
        simp only [Pure.pure, Except.pure, Except.ok.injEq] at h
        subst h
        exact h3

/-- Claim C1, counterexample: a candidate under the root, free of `..`,
short and of clean characters, but absent from the filesystem — rules 1 to
4 all hold, only `exists` is false, and `validate_path` still raises
`PathValidationError`, because `all(results.values())` spans all five
recorded Booleans. -/
theorem validate_path_nonexistent_raises_cex :
    PathValidator.validate_path ⟨"/srv/app", 4096⟩ ⟨fun s => s, fun _ => false⟩ "/srv/app/data"
      = .error ⟨true, true, true, true, false⟩ := by rfl

/-- Claim C1, amended: `validate_path` raises exactly when one of the five
recorded outcomes — the four admissibility rules or the `exists` check —
is false, so a false `exists` outcome alone does cause the call to raise;
the result (returned on success, carried by the error otherwise) records
the `exists` outcome. -/
theorem validate_path_raises_iff_any_of_five_false (v : PathValidator) (fs : FileSystem)
    (path : String) :
    (isErr (v.validate_path fs path) = true ↔
      ¬(v._is_within_project fs path = true ∧ PathValidator._no_parent_reference path = true ∧
        v._valid_length path = true ∧ PathValidator._valid_characters path = true ∧
        fs.pathExists path = true)) ∧
    (v.results fs path).existsOnDisk = fs.pathExists path := by
  refine ⟨?_, rfl⟩
  unfold PathValidator.validate_path
  by_cases h : (v.results fs path).allValues
  · rw [if_pos h]
    simp only [isErr, Bool.false_eq_true, false_iff, not_not]
    simpa [ValidationResult.allValues, PathValidator.results, Bool.and_eq_true, and_assoc] using h
  · rw [if_neg h]
    simp only [isErr, true_iff]
    intro hc
    exact h (by simp [ValidationResult.allValues, PathValidator.results, hc.1, hc.2.1,
      hc.2.2.1, hc.2.2.2.1, hc.2.2.2.2])

/-- Claim C2, counterexample: with two entries that both fail creation,
`ensure_directories` raises at the first entry, naming only the key `a` —
not the aggregate error listing every failed key (`a` and `b`) that the
claim describes (shown alongside as `ensure_directories_specForm`). -/
theorem ensure_directories_first_failure_cex :
    PathRepository.ensure_directories (fun _ => false) [("a", "/srv/app/a"), ("b", "/srv/app/b")]
        = .error (.dirCreateFailed "a") ∧
    ensure_directories_specForm (fun _ => false) [("a", "/srv/app/a"), ("b", "/srv/app/b")]
        = .error ["a", "b"] := ⟨rfl, rfl⟩

/-- Claim C2, amended: `ensure_directories` attempts creation and
permission setting entry by entry in dict order and raises a `PathError`
naming the first failing key, stopping there; failures are not collected
and no aggregate error is built. -/
theorem ensure_directories_raises_at_first_failure (can : String → Bool)
    (paths : List (String × String)) :
    PathRepository.ensure_directories can paths =
      (match paths.find? (fun kp => !can kp.2) with
       | none => .ok ()
       | some kp => .error (.dirCreateFailed kp.1)) := by
  induction paths with
  | nil => rfl
  | cons kp rest ih =>
    cases kp with
    | mk key path =>
      by_cases h : can path
      · simp [PathRepository.ensure_directories, h, List.find?_cons, ih]
      · simp [PathRepository.ensure_directories, h, List.find?_cons]

/-- Claim C3, counterexample: under the scenario environment, the template
referencing the logical key `data` is left literal by `_resolve_path`
(`os.path.expandvars` substitutes only environment variables), so it never
becomes `/srv/app/data/cache`; and registry construction with the two-key
scenario layout fails outright with a missing-configuration error for
`project_root`, since `_resolve_all_paths` demands its fixed key set. -/
theorem scenario_layout_cex :
    PathRepository._resolve_path sampleEnv "$\x7bdata\x7d/cache" = .ok "$\x7bdata\x7d/cache" ∧
    PathRepository.construct scenarioWorld = .error (.missingConfig "project_root") := ⟨rfl, rfl⟩

/-- Claim C3, amended: under environment `PROJECT_ROOT=/srv/app`,
`USER_HOME=/home/u`, `TEMP_DIR=/tmp`, the template over `PROJECT_ROOT`
resolves to `/srv/app/data`, but the template referencing the logical key
`data` resolves to the literal string containing the unexpanded reference —
a template cannot reference a previously resolved logical key — and
constructing the registry from the two-key layout fails with the
missing-configuration error for `project_root`. -/
theorem scenario_layout_amended :
    PathRepository._resolve_path sampleEnv "$\x7bPROJECT_ROOT\x7d/data" = .ok "/srv/app/data" ∧
    PathRepository._resolve_path sampleEnv "$\x7bdata\x7d/cache" = .ok "$\x7bdata\x7d/cache" ∧
    "$\x7bdata\x7d/cache" ≠ "/srv/app/data/cache" ∧
    PathRepository.construct scenarioWorld = .error (.missingConfig "project_root") :=
  ⟨rfl, rfl, by decide, rfl⟩

/-- Claim C4, counterexample: a path carrying the non-printable character
`U+0001` but no denylisted character passes `_valid_characters` — the
validator rule checks only the denylist, never printability. -/
theorem valid_characters_nonprintable_cex :
    PathValidator._valid_characters "/srv/app/a\x01b" = true ∧
    pyIsPrintable '\x01' = false := ⟨rfl, rfl⟩

/-- Claim C4, amended: the validator rule `_valid_characters` holds if and
only if none of the denylisted characters appear in the path string;
printability is no part of this rule (the printability check lives in the
repository's separate `_is_valid_path`, which in turn ignores the
denylist, as the repository accepts a path containing `<`). -/
theorem valid_characters_denylist_only (path : String) :
    (PathValidator._valid_characters path = true ↔
      ∀ c ∈ (pathStr path).data, c ∉ invalid_chars) ∧
    PathRepository._is_valid_path "/srv/app/a<b" = true := by
  refine ⟨?_, rfl⟩
  unfold PathValidator._valid_characters
  rw [Bool.not_eq_true', List.any_eq_false]
  have hiff : ∀ c : Char, ((pathStr path).data.contains c = true) ↔ c ∈ (pathStr path).data :=
    fun c => List.elem_iff
  constructor
  · intro h c hcmem hcinv
    exact absurd ((hiff c).mpr hcmem) (h c hcinv)
  · intro h c hcinv
    simp only [Bool.not_eq_true]
    cases hcc : (pathStr path).data.contains c with
    | false => rfl
    | true => exact absurd hcinv (h c ((hiff c).mp hcc))

/-- Claim C5, counterexample: a registry whose stored path for `x` lies
outside any project root (its parts do not extend those of `/srv/app`) is
returned by `get_path` without any error — no containment re-check exists;
likewise a stored path containing the denylisted `<` is returned, the
character-rule re-check being printability only. -/
theorem get_path_missing_rechecks_cex :
    PathRepository.get_path ⟨[("x", "/etc/passwd")]⟩ "x" = .ok "/etc/passwd" ∧
    relativeToOk "/etc/passwd" "/srv/app" = false ∧
    PathRepository.get_path ⟨[("y", "/srv/app/a<b")]⟩ "y" = .ok "/srv/app/a<b" ∧
    PathValidator._valid_characters "/srv/app/a<b" = false := ⟨rfl, rfl, rfl, rfl⟩

/-- Claim C5, amended: `get_path` fails with the unknown-key error when
the key is absent from the resolved map; otherwise it re-checks only
`_is_valid_path` — the length ceiling, the absence of a literal `..` part
and the printability of every character — and fails with a path error
exactly when that re-check fails; containment under the root and the
character denylist are not re-checked. -/
theorem get_path_recheck_amended (repo : PathRepository) (key : String) :
    repo.get_path key =
      (match repo._paths.lookup key with
       | none => .error (.unknownKey key)
       | some p =>
         if PathRepository._is_valid_path p then .ok p
         else .error (.invalidPathFor key p)) ∧
    ∀ p : String, PathRepository._is_valid_path p = true ↔
      ((pathStr p).length ≤ 4096 ∧ (pathParts p).contains ".." = false ∧
        ∀ c ∈ (pathStr p).data, pyIsPrintable c = true) := by
  refine ⟨rfl, ?_⟩
  intro p
  unfold PathRepository._is_valid_path
  constructor
  · intro h
    by_cases h1 : (pathStr p).length > 4096
    · rw [if_pos h1] at h
      exact absurd h (by simp)
    · rw [if_neg h1] at h
      by_cases h2 : (pathParts p).contains ".." = true
      · rw [if_pos h2] at h
        exact absurd h (by simp)
      · rw [if_neg h2] at h
        by_cases h3 : (pathStr p).data.any (fun c => !pyIsPrintable c) = true
        · rw [if_pos h3] at h
          exact absurd h (by simp)
        · refine ⟨by omega, by simpa using h2, ?_⟩
          intro c hc
          cases hcv : pyIsPrintable c with
          | true => rfl
          | false => exact absurd (List.any_eq_true.mpr ⟨c, hc, by simp [hcv]⟩) h3
  · rintro ⟨hl, hp, hpr⟩
    have g1 : ¬((pathStr p).length > 4096) := by omega
    have g2 : ¬((pathParts p).contains ".." = true) := by
      intro hc
      rw [hc] at hp
      exact absurd hp (by simp)
    have g3 : ¬((pathStr p).data.any (fun c => !pyIsPrintable c) = true) := by
      intro hany
      rcases List.any_eq_true.mp hany with ⟨c, hc, hcv⟩
      rw [hpr c hc] at hcv
      simp at hcv
    rw [if_neg g1, if_neg g2, if_neg g3]

/-- Claim C6, counterexample: the template referencing the unset variable
`FOO` does not fail — `os.path.expandvars` leaves the reference in place
literally, the literal passes `_is_valid_path`, and `_resolve_path`
returns it as the path, reference unexpanded. -/
theorem unset_var_left_literal_cex :
    PathRepository._resolve_path [("USER_HOME", "/home/u")] "$\x7bFOO\x7d/x"
      = .ok "$\x7bFOO\x7d/x" := rfl

/-- Claim C6, amended: resolving a template that references an unset
environment variable does not raise; the reference is left unexpanded in
the returned path.  Only the three required variables are checked — by
`_load_environment`, regardless of which templates reference them — and a
missing `PROJECT_ROOT` fails construction with the `PathError` naming it. -/
theorem unset_var_amended (env : Env) (cfg : ConfigDict)
    (hFOO : lookupEnv env "FOO" = none) (hPR : lookupEnv env "PROJECT_ROOT" = none) :
    PathRepository._resolve_path env "$\x7bFOO\x7d/x" = .ok "$\x7bFOO\x7d/x" ∧
    PathRepository._load_environment env true cfg = .error (.envNotSet "PROJECT_ROOT") := by
  constructor
  · have h2 : expandVarsAux env ("$\x7bFOO\x7d/x".data.length + 1) "$\x7bFOO\x7d/x".data =
        (match lookupEnv env "FOO" with
         | some v => v.data ++ expandVarsAux env 8 ['/', 'x']
         | none => '$' :: '{' :: (['F', 'O', 'O'] ++ '}' :: expandVarsAux env 8 ['/', 'x'])) := rfl
    have h1 : expandVars env "$\x7bFOO\x7d/x" = "$\x7bFOO\x7d/x" := by
      unfold expandVars
      rw [h2, hFOO]
      rfl
    unfold PathRepository._resolve_path
    rw [h1]
    rfl
  · unfold PathRepository._load_environment
    rw [show (required_vars.find? (fun v => (lookupEnv env v).isNone)) = some "PROJECT_ROOT" by
      unfold required_vars
      rw [List.find?_cons]
      rw [hPR]
      rfl]
    rfl

/-- Closed instance of `unset_var_amended` at a concrete environment that
sets `USER_HOME` but neither `FOO` nor `PROJECT_ROOT`. -/
theorem unset_var_amended_witness :
    PathRepository._resolve_path [("USER_HOME", "/home/u")] "$\x7bFOO\x7d/x"
        = .ok "$\x7bFOO\x7d/x" ∧
    PathRepository._load_environment [("USER_HOME", "/home/u")] true []
        = .error (.envNotSet "PROJECT_ROOT") :=
  unset_var_amended [("USER_HOME", "/home/u")] [] (by decide) (by decide)

/-- Claim C7: a path whose unresolved component sequence carries a literal
`..` segment is rejected by `validate_path` with `no_parent_reference`
recorded false, for every root, canonicalisation behaviour and existence
outcome — canonicalisation never neutralises the literal segment, because
`_no_parent_reference` inspects `path.parts` unresolved. -/
theorem parent_reference_always_rejected (v : PathValidator) (fs : FileSystem) (path : String)
    (h : (pathParts path).contains ".." = true) :
    v.validate_path fs path = .error (v.results fs path) ∧
    (v.results fs path).no_parent_reference = false := by
  have hres : (v.results fs path).no_parent_reference = false := by
    show PathValidator._no_parent_reference path = false
    unfold PathValidator._no_parent_reference
    rw [h]
    rfl
  have hall : ¬((v.results fs path).allValues = true) := by
    unfold ValidationResult.allValues
    rw [hres]
    simp
  refine ⟨?_, hres⟩
  unfold PathValidator.validate_path
  rw [if_neg hall]

/-- Closed instance of `parent_reference_always_rejected`: the candidate
`/srv/app/x/../y` whose canonical form would stay under `/srv/app`. -/
theorem parent_reference_always_rejected_witness :
    PathValidator.validate_path ⟨"/srv/app", 4096⟩ ⟨fun s => s, fun _ => true⟩ "/srv/app/x/../y"
        = .error (PathValidator.results ⟨"/srv/app", 4096⟩ ⟨fun s => s, fun _ => true⟩
            "/srv/app/x/../y") ∧
    (PathValidator.results ⟨"/srv/app", 4096⟩ ⟨fun s => s, fun _ => true⟩
        "/srv/app/x/../y").no_parent_reference = false :=
  parent_reference_always_rejected ⟨"/srv/app", 4096⟩ ⟨fun s => s, fun _ => true⟩
    "/srv/app/x/../y" (by decide)

/-- Claim C8: a candidate whose canonical (resolved) form has parts that
do not extend the root's parts — neither the root itself nor a descendant —
is rejected by `validate_path` with `is_within_project` recorded false:
containment is a prefix check on canonicalised path segments, so string
prefix similarity to the root does not help. -/
theorem outside_root_always_rejected (v : PathValidator) (fs : FileSystem) (path : String)
    (h : (pathParts v.project_root).isPrefixOf (pathParts (fs.resolve path)) = false) :
    v.validate_path fs path = .error (v.results fs path) ∧
    (v.results fs path).is_within_project = false := by
  have hb : ¬(pathParts v.project_root = []) := by
    intro he
    rw [he] at h
    simp [List.isPrefixOf] at h
  have hres : (v.results fs path).is_within_project = false := by
    show v._is_within_project fs path = false
    unfold PathValidator._is_within_project relativeToOk
    rw [if_neg hb]
    exact h
  have hall : ¬((v.results fs path).allValues = true) := by
    unfold ValidationResult.allValues
    rw [hres]
    simp
  refine ⟨?_, hres⟩
  unfold PathValidator.validate_path
  rw [if_neg hall]

/-- Closed instance of `outside_root_always_rejected`: the candidate
`/srv/app-evil`, whose string has the root `/srv/app` as a prefix but whose
canonical segments do not. -/
theorem outside_root_always_rejected_witness :
    PathValidator.validate_path ⟨"/srv/app", 4096⟩ ⟨fun s => s, fun _ => true⟩ "/srv/app-evil"
        = .error (PathValidator.results ⟨"/srv/app", 4096⟩ ⟨fun s => s, fun _ => true⟩
            "/srv/app-evil") ∧
    (PathValidator.results ⟨"/srv/app", 4096⟩ ⟨fun s => s, fun _ => true⟩
        "/srv/app-evil").is_within_project = false :=
  outside_root_always_rejected ⟨"/srv/app", 4096⟩ ⟨fun s => s, fun _ => true⟩
    "/srv/app-evil" (by decide)

/-- Claim C9: construction failure propagates out of `get_instance` with
the singleton left unset — `cls._instance = cls()` assigns only after
`cls()` returns — so no partial registry is observable, and a later
`get_instance` call re-attempts construction from scratch and succeeds on
a corrected world. -/
theorem get_instance_unset_on_failure (w w2 : BuildWorld) (e : PathError) (r : PathRepository)
    (hfail : PathRepository.construct w = .error e)
    (hok : PathRepository.construct w2 = .ok r) :
    PathRepository.get_instance none w = (none, .error e) ∧
    PathRepository.get_instance none w2 = (some r, .ok r) := by
  unfold PathRepository.get_instance
  rw [hfail, hok]
  exact ⟨rfl, rfl⟩

/-- Closed instance of `get_instance_unset_on_failure`: a world lacking
`PROJECT_ROOT` fails leaving the singleton unset; the corrected
`sampleWorld` then constructs the full registry. -/
theorem get_instance_unset_on_failure_witness :
    PathRepository.get_instance none failWorld = (none, .error (.envNotSet "PROJECT_ROOT")) ∧
    PathRepository.get_instance none sampleWorld = (some ⟨samplePaths⟩, .ok ⟨samplePaths⟩) :=
  get_instance_unset_on_failure failWorld sampleWorld (.envNotSet "PROJECT_ROOT")
    ⟨samplePaths⟩ (by rfl) (by rfl)

/-- Claim C10: after a successful construction, the two lookups agree: a
key carried by `get_all_paths()` is returned by `get_path` without raising
and with the very same path — construction's `_validate_paths` pass means
the deterministic `_is_valid_path` re-check cannot fail on a stored path. -/
theorem get_path_agrees_with_get_all_paths (w : BuildWorld) (repo : PathRepository)
    (hbuild : PathRepository.construct w = .ok repo) (key p : String)
    (hmem : (repo.get_all_paths).lookup key = some p) :
    repo.get_path key = .ok p := by
  have hval := construct_paths_validated w repo hbuild
  unfold PathRepository._validate_paths at hval
  have hall : ∀ kp ∈ repo._paths, PathRepository._is_valid_path kp.2 = true := by
    cases hf : List.find? (fun kp => !PathRepository._is_valid_path kp.2) repo._paths with
    | some kp => rw [hf] at hval; simp at hval
    | none =>
      intro kp hkp
      have := List.find?_eq_none.mp hf kp hkp
      simpa using this
  have hmem2 : repo._paths.lookup key = some p := hmem
  have hv : PathRepository._is_valid_path p = true := hall (key, p) (lookup_mem hmem2)
  unfold PathRepository.get_path
  rw [hmem2]
  show (if PathRepository._is_valid_path p = true then Except.ok p
        else Except.error (PathError.invalidPathFor key p)) = Except.ok p
  rw [if_pos hv]

/-- Closed instance of `get_path_agrees_with_get_all_paths` on the registry
built from `sampleWorld`, at the key `data_input`. -/
theorem get_path_agrees_with_get_all_paths_witness :
    PathRepository.get_path ⟨samplePaths⟩ "data_input" = .ok "/srv/app/data/input" :=
  get_path_agrees_with_get_all_paths sampleWorld ⟨samplePaths⟩ (by rfl)
    "data_input" "/srv/app/data/input" (by rfl)
